import Mathlib

/-!
Verification of the jline3 native marshalling layer (`clibrary.c`, `kernel32.c`,
`jlinenative.c`): a shallow embedding of the JNI structure marshallers, the
per-type field-descriptor caches, and the platform facade calls, together with
proofs of the specified properties.

Machine integers are modelled as `Int`/`Nat` with the C conversions made
explicit: a store of a signed `jlong`/`jshort` into an unsigned native field of
width `w` reduces the value modulo `2^w`, and reading an unsigned native field
back into a signed Java field applies the two's-complement reinterpretation.
-/

set_option autoImplicit false

/-- C conversion of a signed Java integer (`jlong`, `jshort`, …) to an unsigned
native integer type of bit width `w` (e.g. `tcflag_t`, `speed_t`, `WORD`):
reduction modulo `2^w`, always landing in `[0, 2^w)`. -/
def toUnsigned (w : Nat) (a : Int) : Nat :=
  (a % ((2 : Int) ^ w)).toNat

/-- C conversion of an unsigned native integer back to a signed Java integer of
bit width `bits`: values below `2^(bits-1)` are kept, larger ones wrap around by
`2^bits` (two's complement reinterpretation, what a cast like
`(jlong)lpStruct->c_iflag` or `(jshort)lpStruct->wAttributes` performs). -/
def signedOfUnsigned (bits : Nat) (u : Nat) : Int :=
  if u % 2 ^ bits < 2 ^ (bits - 1) then ((u % 2 ^ bits : Nat) : Int)
  else ((u % 2 ^ bits : Nat) : Int) - (2 : Int) ^ bits

/-- Conversion of an unsigned native value to a `jlong` (64-bit signed). -/
def toJlong (u : Nat) : Int := signedOfUnsigned 64 u

/-- Conversion of an unsigned native value to a `jshort` (16-bit signed). -/
def toJshort (u : Nat) : Int := signedOfUnsigned 16 u

/-- The managed `jlong` values that faithfully represent a native unsigned field
of width `w`: for a field narrower than the 64-bit `jlong` the value must be the
zero-extension of the native value, while a 64-bit native field is represented
in two's complement by every `jlong`. -/
def repValid (w : Nat) (a : Int) : Prop :=
  (w < 64 ∧ 0 ≤ a ∧ a < 2 ^ w) ∨ (w = 64 ∧ -(2 ^ 63) ≤ a ∧ a < 2 ^ 63)

instance (w : Nat) (a : Int) : Decidable (repValid w a) := by
  unfold repValid; infer_instance

/-! ## JNI primitives used by the marshallers -/

/-- Errors a marshalling step can signal through the JNI environment. -/
inductive JniError where
  | arrayIndexOutOfBounds
  deriving Repr, DecidableEq

/-- JNI `GetByteArrayRegion(arr, 0, len, dst)`: copies the first `len` bytes of
the managed array into the native buffer; signals
`ArrayIndexOutOfBoundsException` when the managed array is shorter than `len`.
A longer managed array is truncated silently. -/
def getByteArrayRegion (arr : List Int) (len : Nat) : Except JniError (List Int) :=
  if len ≤ arr.length then Except.ok (arr.take len)
  else Except.error JniError.arrayIndexOutOfBounds

/-- JNI `SetByteArrayRegion(arr, 0, len, src)`: overwrites the first `len` bytes
of the managed array with the native buffer's bytes, leaving the remainder of
the managed array untouched; signals `ArrayIndexOutOfBoundsException` when the
managed array is shorter than `len`. -/
def setByteArrayRegion (arr : List Int) (len : Nat) (src : List Int) :
    Except JniError (List Int) :=
  if len ≤ arr.length then Except.ok (src.take len ++ arr.drop len)
  else Except.error JniError.arrayIndexOutOfBounds

/-! ## POSIX side (`clibrary.c`): termios and winsize marshalling -/

/-- The POSIX platform ABI parameters the marshaller depends on: the bit widths
of `tcflag_t` and `speed_t`, the control-character array length `NCCS`
(`sizeof(lpStruct->c_cc)` since `cc_t` is one byte), and the struct sizes the
`init` entry points publish. -/
structure PosixAbi where
  tcflagBits : Nat
  speedBits : Nat
  nccs : Nat
  sizeof_termios : Nat
  sizeof_winsize : Nat
  deriving Repr, DecidableEq

/-- The managed `CLibrary.Termios` object: four `jlong` flag fields, a `jbyte[]`
control-character array and two `jlong` speed fields. -/
structure TermiosJava where
  c_iflag : Int
  c_oflag : Int
  c_cflag : Int
  c_lflag : Int
  c_cc : List Int
  c_ispeed : Int
  c_ospeed : Int
  deriving Repr, DecidableEq

/-- The native `struct termios`: flag and speed fields as unsigned machine
integers of the platform widths, and the fixed `NCCS`-byte `c_cc` array (raw
bytes copied verbatim by the region operations). -/
structure TermiosNative where
  c_iflag : Nat
  c_oflag : Nat
  c_cflag : Nat
  c_lflag : Nat
  c_cc : List Int
  c_ispeed : Nat
  c_ospeed : Nat
  deriving Repr, DecidableEq

/-- Model of `getTermiosFields` (clibrary.c): reads every field of the managed Termios
object into the native struct. Scalar stores convert `jlong` to the unsigned
native width; the `c_cc` array is copied with
`GetByteArrayRegion(lpObject1, 0, sizeof(lpStruct->c_cc), ...)`, whose pending
`ArrayIndexOutOfBoundsException` is modelled as the `Except` error. All fields
of `lpStruct` are written on success, so the prior struct contents are
discarded. -/
def getTermiosFields (abi : PosixAbi) (lpObject : TermiosJava)
    (lpStruct : TermiosNative) : Except JniError TermiosNative :=
  match getByteArrayRegion lpObject.c_cc abi.nccs with
  | Except.error e => Except.error e
  | Except.ok cc =>
      Except.ok
        { c_iflag := toUnsigned abi.tcflagBits lpObject.c_iflag
          c_oflag := toUnsigned abi.tcflagBits lpObject.c_oflag
          c_cflag := toUnsigned abi.tcflagBits lpObject.c_cflag
          c_lflag := toUnsigned abi.tcflagBits lpObject.c_lflag
          c_cc := cc
          c_ispeed := toUnsigned abi.speedBits lpObject.c_ispeed
          c_ospeed := toUnsigned abi.speedBits lpObject.c_ospeed }

/-- Model of `setTermiosFields` (clibrary.c): writes every field of the native struct
back into the managed Termios object. Scalar stores cast the unsigned native
value to `jlong`; the `c_cc` bytes are written with
`SetByteArrayRegion(lpObject1, 0, sizeof(lpStruct->c_cc), ...)` into the
object's existing array, leaving any bytes past `NCCS` untouched. -/
def setTermiosFields (abi : PosixAbi) (lpObject : TermiosJava)
    (lpStruct : TermiosNative) : Except JniError TermiosJava :=
  match setByteArrayRegion lpObject.c_cc abi.nccs lpStruct.c_cc with
  | Except.error e => Except.error e
  | Except.ok cc =>
      Except.ok
        { c_iflag := toJlong lpStruct.c_iflag
          c_oflag := toJlong lpStruct.c_oflag
          c_cflag := toJlong lpStruct.c_cflag
          c_lflag := toJlong lpStruct.c_lflag
          c_cc := cc
          c_ispeed := toJlong lpStruct.c_ispeed
          c_ospeed := toJlong lpStruct.c_ospeed }

/-- The managed `CLibrary.WinSize` object: four `jshort` fields. -/
structure WinSizeJava where
  ws_row : Int
  ws_col : Int
  ws_xpixel : Int
  ws_ypixel : Int
  deriving Repr, DecidableEq

/-- The native `struct winsize`: four `unsigned short` fields. -/
structure WinSizeNative where
  ws_row : Nat
  ws_col : Nat
  ws_xpixel : Nat
  ws_ypixel : Nat
  deriving Repr, DecidableEq

/-- Model of `getWinSizeFields` (clibrary.c): reads the four `jshort` fields into the
native `unsigned short` fields (modular conversion). All fields are written, so
the prior struct contents are discarded. -/
def getWinSizeFields (lpObject : WinSizeJava) (lpStruct : WinSizeNative) :
    WinSizeNative :=
  { ws_row := toUnsigned 16 lpObject.ws_row
    ws_col := toUnsigned 16 lpObject.ws_col
    ws_xpixel := toUnsigned 16 lpObject.ws_xpixel
    ws_ypixel := toUnsigned 16 lpObject.ws_ypixel }

/-- Model of `setWinSizeFields` (clibrary.c): writes the native `unsigned short` fields
back into the managed object as `jshort` values. -/
def setWinSizeFields (lpObject : WinSizeJava) (lpStruct : WinSizeNative) :
    WinSizeJava :=
  { ws_row := toJshort lpStruct.ws_row
    ws_col := toJshort lpStruct.ws_col
    ws_xpixel := toJshort lpStruct.ws_xpixel
    ws_ypixel := toJshort lpStruct.ws_ypixel }

/-! ## Field-descriptor caches (`*_FID_CACHE` globals) -/

/-- One observable write to a process-global field-descriptor cache, in program
order; `barrier` is the `hawtjni_w_barrier()` memory fence and `cachedFlag` the
final `Fc.cached = 1` publish store. -/
inductive CacheWrite where
  | clazz
  | field (name : String)
  | barrier
  | cachedFlag
  deriving Repr, DecidableEq

/-- The managed-runtime reflection environment for one structure kind: the
result of `GetObjectClass` and the `GetFieldID` table keyed by field name and
JNI signature. `none` models an absent field, for which `GetFieldID` returns
`NULL` and leaves a `NoSuchFieldError` pending. -/
structure JniClassEnv where
  clazz : Nat
  fieldID : String → String → Option Nat

/-- The `Termios_FID_CACHE` global: the `cached` flag, the cached class and the
seven accessor tokens (`none` both before population and when `GetFieldID`
failed). -/
structure TermiosFidCache where
  cached : Bool
  clazz : Option Nat
  c_iflag : Option Nat
  c_oflag : Option Nat
  c_cflag : Option Nat
  c_lflag : Option Nat
  c_cc : Option Nat
  c_ispeed : Option Nat
  c_ospeed : Option Nat
  deriving Repr, DecidableEq

/-- Model of `cacheTermiosFields` (clibrary.c): returns unchanged if already cached;
otherwise resolves every accessor, issues the write barrier and only then sets
the `cached` flag. The result carries the new cache, the ordered list of global
writes performed, and whether a `NoSuchFieldError` became pending (the code
performs no `NULL` check on any `GetFieldID` result, so it populates and
publishes the cache regardless). -/
def cacheTermiosFields (env : JniClassEnv) (st : TermiosFidCache) :
    TermiosFidCache × List CacheWrite × Bool :=
  if st.cached then (st, [], false)
  else
    let fi := env.fieldID "c_iflag" "J"
    let fo := env.fieldID "c_oflag" "J"
    let fc := env.fieldID "c_cflag" "J"
    let fl := env.fieldID "c_lflag" "J"
    let fcc := env.fieldID "c_cc" "[B"
    let fis := env.fieldID "c_ispeed" "J"
    let fos := env.fieldID "c_ospeed" "J"
    ({ cached := true, clazz := some env.clazz, c_iflag := fi, c_oflag := fo
       c_cflag := fc, c_lflag := fl, c_cc := fcc, c_ispeed := fis, c_ospeed := fos },
     [CacheWrite.clazz, CacheWrite.field "c_iflag", CacheWrite.field "c_oflag",
      CacheWrite.field "c_cflag", CacheWrite.field "c_lflag", CacheWrite.field "c_cc",
      CacheWrite.field "c_ispeed", CacheWrite.field "c_ospeed",
      CacheWrite.barrier, CacheWrite.cachedFlag],
     fi.isNone || fo.isNone || fc.isNone || fl.isNone || fcc.isNone ||
       fis.isNone || fos.isNone)

/-- The cache prelude `if (!TermiosFc.cached) cacheTermiosFields(env, lpObject);`
executed by `getTermiosFields` and `setTermiosFields` before any field access. -/
def termiosMarshalCacheStep (env : JniClassEnv) (st : TermiosFidCache) :
    TermiosFidCache × List CacheWrite × Bool :=
  if st.cached then (st, [], false) else cacheTermiosFields env st

/-- The `INPUT_RECORD_FID_CACHE` global (kernel32.c). -/
structure InputRecordFidCache where
  cached : Bool
  clazz : Option Nat
  eventType : Option Nat
  keyEvent : Option Nat
  mouseEvent : Option Nat
  windowBufferSizeEvent : Option Nat
  menuEvent : Option Nat
  focusEvent : Option Nat
  deriving Repr, DecidableEq

/-- Model of `cacheINPUT_RECORDFields` (kernel32.c): same once-only populate-then-publish
discipline as `cacheTermiosFields`, over the six `INPUT_RECORD` accessors. -/
def cacheINPUT_RECORDFields (env : JniClassEnv) (st : InputRecordFidCache) :
    InputRecordFidCache × List CacheWrite × Bool :=
  if st.cached then (st, [], false)
  else
    let fe := env.fieldID "eventType" "S"
    let fk := env.fieldID "keyEvent" "Lorg/jline/nativ/Kernel32$KEY_EVENT_RECORD;"
    let fm := env.fieldID "mouseEvent" "Lorg/jline/nativ/Kernel32$MOUSE_EVENT_RECORD;"
    let fw := env.fieldID "windowBufferSizeEvent" "Lorg/jline/nativ/Kernel32$WINDOW_BUFFER_SIZE_RECORD;"
    let fn := env.fieldID "menuEvent" "Lorg/jline/nativ/Kernel32$MENU_EVENT_RECORD;"
    let ff := env.fieldID "focusEvent" "Lorg/jline/nativ/Kernel32$FOCUS_EVENT_RECORD;"
    ({ cached := true, clazz := some env.clazz, eventType := fe, keyEvent := fk
       mouseEvent := fm, windowBufferSizeEvent := fw, menuEvent := fn, focusEvent := ff },
     [CacheWrite.clazz, CacheWrite.field "eventType", CacheWrite.field "keyEvent",
      CacheWrite.field "mouseEvent", CacheWrite.field "windowBufferSizeEvent",
      CacheWrite.field "menuEvent", CacheWrite.field "focusEvent",
      CacheWrite.barrier, CacheWrite.cachedFlag],
     fe.isNone || fk.isNone || fm.isNone || fw.isNone || fn.isNone || ff.isNone)

/-- The cache prelude executed by `getINPUT_RECORDFields`/`setINPUT_RECORDFields`. -/
def inputRecordMarshalCacheStep (env : JniClassEnv) (st : InputRecordFidCache) :
    InputRecordFidCache × List CacheWrite × Bool :=
  if st.cached then (st, [], false) else cacheINPUT_RECORDFields env st

/-! ## Windows side (`kernel32.c`): COORD, SMALL_RECT and
CONSOLE_SCREEN_BUFFER_INFO marshalling -/

/-- The managed `Kernel32.COORD` object: two `jshort` fields. -/
structure CoordJava where
  x : Int
  y : Int
  deriving Repr, DecidableEq

/-- The native `COORD`: two `SHORT` fields, same width as `jshort`, copied
verbatim. -/
structure CoordNative where
  X : Int
  Y : Int
  deriving Repr, DecidableEq

/-- Model of `getCOORDFields` (kernel32.c): both fields written from the managed object;
`jshort` and `SHORT` have the same width so the copy preserves the value. -/
def getCOORDFields (lpObject : CoordJava) : CoordNative :=
  { X := lpObject.x, Y := lpObject.y }

/-- Model of `setCOORDFields` (kernel32.c): both managed fields overwritten from the
native struct. -/
def setCOORDFields (lpObject : CoordJava) (lpStruct : CoordNative) : CoordJava :=
  { x := lpStruct.X, y := lpStruct.Y }

/-- The managed `Kernel32.SMALL_RECT` object: four `jshort` fields. -/
structure SmallRectJava where
  left : Int
  top : Int
  right : Int
  bottom : Int
  deriving Repr, DecidableEq

/-- The native `SMALL_RECT`: four `SHORT` fields. -/
structure SmallRectNative where
  Left : Int
  Top : Int
  Right : Int
  Bottom : Int
  deriving Repr, DecidableEq

/-- Model of `getSMALL_RECTFields` (kernel32.c). -/
def getSMALL_RECTFields (lpObject : SmallRectJava) : SmallRectNative :=
  { Left := lpObject.left, Top := lpObject.top
    Right := lpObject.right, Bottom := lpObject.bottom }

/-- Model of `setSMALL_RECTFields` (kernel32.c). -/
def setSMALL_RECTFields (lpObject : SmallRectJava) (lpStruct : SmallRectNative) :
    SmallRectJava :=
  { left := lpStruct.Left, top := lpStruct.Top
    right := lpStruct.Right, bottom := lpStruct.Bottom }

/-- The managed `Kernel32.CONSOLE_SCREEN_BUFFER_INFO` object: four nested
sub-objects (each possibly `null`) and the scalar `jshort` attributes field. -/
structure CsbiJava where
  size : Option CoordJava
  cursorPosition : Option CoordJava
  attributes : Int
  window : Option SmallRectJava
  maximumWindowSize : Option CoordJava
  deriving Repr, DecidableEq

/-- The native `CONSOLE_SCREEN_BUFFER_INFO`: two `COORD`s, a `WORD` attribute
mask, a `SMALL_RECT` and a `COORD`. -/
structure CsbiNative where
  dwSize : CoordNative
  dwCursorPosition : CoordNative
  wAttributes : Nat
  srWindow : SmallRectNative
  dwMaximumWindowSize : CoordNative
  deriving Repr, DecidableEq

/-- Model of `getCONSOLE_SCREEN_BUFFER_INFOFields` (kernel32.c): each present sub-object
is marshalled into its native sub-region; a `null` sub-object is skipped with no
error, leaving that native sub-region at its prior contents. The scalar
`attributes` field is always stored (as a `WORD`). -/
def getCONSOLE_SCREEN_BUFFER_INFOFields (lpObject : CsbiJava)
    (lpStruct : CsbiNative) : CsbiNative :=
  { dwSize :=
      match lpObject.size with
      | some o => getCOORDFields o
      | none => lpStruct.dwSize
    dwCursorPosition :=
      match lpObject.cursorPosition with
      | some o => getCOORDFields o
      | none => lpStruct.dwCursorPosition
    wAttributes := toUnsigned 16 lpObject.attributes
    srWindow :=
      match lpObject.window with
      | some o => getSMALL_RECTFields o
      | none => lpStruct.srWindow
    dwMaximumWindowSize :=
      match lpObject.maximumWindowSize with
      | some o => getCOORDFields o
      | none => lpStruct.dwMaximumWindowSize }

/-- Model of `setCONSOLE_SCREEN_BUFFER_INFOFields` (kernel32.c): each present managed
sub-object is overwritten in place from its native sub-region; a `null`
sub-object is skipped with no error, leaving the managed field untouched
(still `null`, not zeroed). The scalar `attributes` field is always stored
back as a `jshort`. -/
def setCONSOLE_SCREEN_BUFFER_INFOFields (lpObject : CsbiJava)
    (lpStruct : CsbiNative) : CsbiJava :=
  { size := lpObject.size.map (fun o => setCOORDFields o lpStruct.dwSize)
    cursorPosition :=
      lpObject.cursorPosition.map (fun o => setCOORDFields o lpStruct.dwCursorPosition)
    attributes := toJshort lpStruct.wAttributes
    window := lpObject.window.map (fun o => setSMALL_RECTFields o lpStruct.srWindow)
    maximumWindowSize :=
      lpObject.maximumWindowSize.map (fun o => setCOORDFields o lpStruct.dwMaximumWindowSize) }

/-! ## Platform facade calls -/

/-- The observable outcome of a facade entry point that ends in a raw OS call:
either the OS call is issued with the given native arguments, or the process
runs into undefined behaviour (a null-pointer dereference) before reaching it. -/
inductive NativeOutcome (α : Type) where
  | issued (args : α)
  | crash
  deriving Repr, DecidableEq

/-- The native argument tuple passed to the `openpty(3)` library call:
`amaster`/`aslave`/`name` pinned buffers (or `NULL`) and the marshalled
`termios`/`winsize` structs (or `NULL`). -/
structure OpenptyCall where
  amaster : Option (List Int)
  aslave : Option (List Int)
  name : Option (List Int)
  termp : Option TermiosNative
  winp : Option WinSizeNative
  deriving Repr, DecidableEq

/-- Model of `CLibrary_NATIVE(openpty)` (clibrary.c): every argument is marshalled only
when non-null (`if (argN) ...`), and the `openpty` call is then issued with a
null native pointer for each absent argument. `junkT`/`junkW` are the
uninitialized stack structs `_arg3`/`_arg4` the marshallers write into. The
result is the argument tuple handed to the OS call, or the pending marshalling
error that made the code jump to `fail` before the call. The
`GetIntArrayElements`/`GetByteArrayElements` pinning of the three array
arguments is modelled as always succeeding (its `NULL` return is an
out-of-memory path). -/
def CLibrary_openpty (abi : PosixAbi) (junkT : TermiosNative) (junkW : WinSizeNative)
    (arg0 arg1 : Option (List Int)) (arg2 : Option (List Int))
    (arg3 : Option TermiosJava) (arg4 : Option WinSizeJava) :
    Except JniError OpenptyCall :=
  match arg3 with
  | none =>
      Except.ok { amaster := arg0, aslave := arg1, name := arg2, termp := none
                  winp := arg4.map (fun w => getWinSizeFields w junkW) }
  | some t =>
      match getTermiosFields abi t junkT with
      | Except.error e => Except.error e
      | Except.ok tn =>
          Except.ok { amaster := arg0, aslave := arg1, name := arg2, termp := some tn
                      winp := arg4.map (fun w => getWinSizeFields w junkW) }

/-- Model of `CLibrary_NATIVE(tcgetattr)` (clibrary.c): the OS call fills the stack
struct and returns `osRc`; `osStruct` is the stack struct's contents after the
call (junk when the call failed, since `_arg1` is never initialized). The
managed object, when present, is then overwritten with `setTermiosFields`
unconditionally — the code at the `fail:` label runs for every `rc` — and `rc`
is returned verbatim. -/
def CLibrary_tcgetattr (abi : PosixAbi) (osRc : Int) (osStruct : TermiosNative)
    (arg1 : Option TermiosJava) : Except JniError (Int × Option TermiosJava) :=
  match arg1 with
  | none => Except.ok (osRc, none)
  | some b =>
      match setTermiosFields abi b osStruct with
      | Except.error e => Except.error e
      | Except.ok b2 => Except.ok (osRc, some b2)

/-- The `char s[256]` buffer size `CLibrary_NATIVE(ttyname)` hands to
`ttyname_r`. -/
def ttynameBufSize : Nat := 256

/-- Model of `CLibrary_NATIVE(ttyname)` (clibrary.c): calls
`ttyname_r(fd, s, ttynameBufSize)`, modelled by the OS behaviour `osTtyname`
mapping a descriptor and buffer size to a status and the resolved name. A
nonzero status leaves `rc` as the null string (`None`); a zero status returns
the resolved name. -/
def CLibrary_ttyname (osTtyname : Nat → Nat → Int × List Char) (fd : Nat) :
    Option (List Char) :=
  let r := osTtyname fd ttynameBufSize
  if r.1 = 0 then some r.2 else none

/-- Model of `Kernel32_NATIVE(SetConsoleCursorPosition)` (kernel32.c): a present COORD
argument is marshalled and passed by value; an absent one leaves `lparg1`
`NULL`, and the unconditional by-value dereference `*lparg1` is a null-pointer
dereference before any OS call. -/
def Kernel32_SetConsoleCursorPosition (arg0 : Int) (arg1 : Option CoordJava) :
    NativeOutcome (Int × CoordNative) :=
  match arg1 with
  | some c => NativeOutcome.issued (arg0, getCOORDFields c)
  | none => NativeOutcome.crash

/-! ## Windows tty detection (`Kernel32_NATIVE(isatty)`, kernel32.c) -/

/-- Model of `GetFileType` result for a character device (`FILE_TYPE_CHAR`). -/
def FILE_TYPE_CHAR : Nat := 2

/-- Whether `needle` occurs at the start of `hay` (character-wise). -/
def leadsWith : List Char → List Char → Bool
  | [], _ => true
  | _ :: _, [] => false
  | a :: as, b :: bs => a == b && leadsWith as bs

/-- Model of `wcsstr(hay, needle) != NULL`: whether `needle` occurs somewhere in `hay`. -/
def wcsstrHit (hay needle : List Char) : Bool :=
  match hay with
  | [] => leadsWith needle []
  | _ :: t => leadsWith needle hay || wcsstrHit t needle

/-- The environment a `Kernel32_NATIVE(isatty)` call observes: handle and file
type, console-mode query result, the (lazily loaded) `ntdll`/`NtQueryObject`
availability after this call's load attempt, the `NtQueryObject` status, and
the returned kernel object name (buffer plus byte length, `nameNull` when
`Name.Buffer` is `NULL`). -/
structure Win32IsattyEnv where
  osfhandleNull : Bool
  fileType : Nat
  consoleModeOk : Bool
  ntdllLoaded : Bool
  ntQueryObjectFound : Bool
  queryOk : Bool
  nameNull : Bool
  nameBuffer : List Char
  nameLenBytes : Nat

/-- The kernel object name actually inspected: the buffer cut at
`Name.Length / 2` wide characters (`name[nameinfo->Name.Length / 2] = 0`). -/
def isattyEffectiveName (env : Win32IsattyEnv) : List Char :=
  env.nameBuffer.take (env.nameLenBytes / 2)

/-- The pty-pipe naming test from the code:
`(wcsstr(name, L"msys-") || wcsstr(name, L"cygwin-")) && wcsstr(name, L"-pty")`. -/
def ptyPipeNameHit (name : List Char) : Bool :=
  (wcsstrHit name ("msys-".toList) || wcsstrHit name ("cygwin-".toList)) &&
    wcsstrHit name ("-pty".toList)

/-- Model of `Kernel32_NATIVE(isatty)` (kernel32.c): a non-null handle of file type
`FILE_TYPE_CHAR` is classified by whether `GetConsoleMode` succeeds; every other
handle goes through the `ntdll` name query, with every failure along the way
yielding 0 and a matching pty pipe name yielding 1. -/
def Kernel32_isatty (env : Win32IsattyEnv) : Int :=
  if !env.osfhandleNull && (env.fileType == FILE_TYPE_CHAR) then
    if env.consoleModeOk then 1 else 0
  else if !env.ntdllLoaded then 0
  else if !env.ntQueryObjectFound then 0
  else if !env.queryOk then 0
  else if env.nameNull then 0
  else if ptyPipeNameHit (isattyEffectiveName env) then 1 else 0

/-! ## `init` entry points: published `SIZEOF` values

The Windows struct sizes are fixed by the Win32 ABI (`SHORT`/`WORD`/`WCHAR` are
2 bytes, `BOOL`/`DWORD`/`UINT` 4 bytes, structs padded to the largest member
alignment), so each `sizeof` below is a concrete number derived from the
wincon.h layouts. -/

def sizeof_COORD : Nat := 4
def sizeof_SMALL_RECT : Nat := 8
def sizeof_CHAR_INFO : Nat := 4
def sizeof_CONSOLE_SCREEN_BUFFER_INFO : Nat := 22
def sizeof_FOCUS_EVENT_RECORD : Nat := 4
def sizeof_KEY_EVENT_RECORD : Nat := 16
def sizeof_MENU_EVENT_RECORD : Nat := 4
def sizeof_MOUSE_EVENT_RECORD : Nat := 16
def sizeof_WINDOW_BUFFER_SIZE_RECORD : Nat := 4
def sizeof_INPUT_RECORD : Nat := 20

/-- Model of `Termios_NATIVE(init)`: stores `sizeof(struct termios)` into the managed
`SIZEOF` static. -/
def Termios_init_SIZEOF (abi : PosixAbi) : Nat := abi.sizeof_termios

/-- Model of `WinSize_NATIVE(init)`: stores `sizeof(struct winsize)`. -/
def WinSize_init_SIZEOF (abi : PosixAbi) : Nat := abi.sizeof_winsize

/-- Model of `CHAR_INFO_NATIVE(init)`: stores `sizeof(CHAR_INFO)`. -/
def CHAR_INFO_init_SIZEOF : Nat := sizeof_CHAR_INFO

/-- Model of `CONSOLE_SCREEN_BUFFER_INFO_NATIVE(init)`: stores
`sizeof(CONSOLE_SCREEN_BUFFER_INFO)`. -/
def CONSOLE_SCREEN_BUFFER_INFO_init_SIZEOF : Nat := sizeof_CONSOLE_SCREEN_BUFFER_INFO

/-- Model of `COORD_NATIVE(init)`: stores `sizeof(COORD)`. -/
def COORD_init_SIZEOF : Nat := sizeof_COORD

/-- Model of `FOCUS_EVENT_RECORD_NATIVE(init)` (kernel32.c line 802): the source stores
`sizeof(WINDOW_BUFFER_SIZE_RECORD)` here, not `sizeof(FOCUS_EVENT_RECORD)`;
on the Win32 ABI both structs are 4 bytes, so the published value coincides
with `sizeof(FOCUS_EVENT_RECORD)`. -/
def FOCUS_EVENT_RECORD_init_SIZEOF : Nat := sizeof_WINDOW_BUFFER_SIZE_RECORD

/-- Model of `INPUT_RECORD_NATIVE(init)`: stores `sizeof(INPUT_RECORD)`. -/
def INPUT_RECORD_init_SIZEOF : Nat := sizeof_INPUT_RECORD

/-- Model of `KEY_EVENT_RECORD_NATIVE(init)`: stores `sizeof(KEY_EVENT_RECORD)`. -/
def KEY_EVENT_RECORD_init_SIZEOF : Nat := sizeof_KEY_EVENT_RECORD

/-- Model of `MENU_EVENT_RECORD_NATIVE(init)`: stores `sizeof(MENU_EVENT_RECORD)`. -/
def MENU_EVENT_RECORD_init_SIZEOF : Nat := sizeof_MENU_EVENT_RECORD

/-- Model of `MOUSE_EVENT_RECORD_NATIVE(init)`: stores `sizeof(MOUSE_EVENT_RECORD)`. -/
def MOUSE_EVENT_RECORD_init_SIZEOF : Nat := sizeof_MOUSE_EVENT_RECORD

/-- Model of `SMALL_RECT_NATIVE(init)`: stores `sizeof(SMALL_RECT)`. -/
def SMALL_RECT_init_SIZEOF : Nat := sizeof_SMALL_RECT

/-- Model of `WINDOW_BUFFER_SIZE_RECORD_NATIVE(init)`: stores
`sizeof(WINDOW_BUFFER_SIZE_RECORD)`. -/
def WINDOW_BUFFER_SIZE_RECORD_init_SIZEOF : Nat := sizeof_WINDOW_BUFFER_SIZE_RECORD
/-! ## Concrete fixtures used by the witnesses and counterexamples -/

/-- A Linux-like POSIX ABI instance: 32-bit `tcflag_t`/`speed_t`, 8-entry
`c_cc` (kept small for fast evaluation; the theorems hold for every `NCCS`). -/
def abiW : PosixAbi :=
  { tcflagBits := 32, speedBits := 32, nccs := 8
    sizeof_termios := 60, sizeof_winsize := 8 }

/-- A Termios object with every flag at the all-one 32-bit bitmask. -/
def termiosAllOnes : TermiosJava :=
  { c_iflag := 4294967295, c_oflag := 4294967295, c_cflag := 4294967295
    c_lflag := 4294967295, c_cc := List.replicate 8 1
    c_ispeed := 4294967295, c_ospeed := 38400 }

/-- A zeroed destination Termios object with a full-length `c_cc` array. -/
def termiosB : TermiosJava :=
  { c_iflag := 0, c_oflag := 0, c_cflag := 0, c_lflag := 0
    c_cc := List.replicate 8 0, c_ispeed := 0, c_ospeed := 0 }

/-- A Termios object whose `c_cc` array is shorter than `NCCS`. -/
def termiosShortCc : TermiosJava :=
  { c_iflag := 0, c_oflag := 0, c_cflag := 0, c_lflag := 0
    c_cc := [1, 2], c_ispeed := 0, c_ospeed := 0 }

/-- A Termios object whose `c_cc` array is longer than `NCCS`. -/
def termiosLongCc : TermiosJava :=
  { c_iflag := 0, c_oflag := 0, c_cflag := 0, c_lflag := 0
    c_cc := List.replicate 12 9, c_ispeed := 0, c_ospeed := 0 }

/-- An arbitrary native termios struct (stack contents). -/
def termiosN0 : TermiosNative :=
  { c_iflag := 0, c_oflag := 0, c_cflag := 0, c_lflag := 0
    c_cc := List.replicate 8 0, c_ispeed := 0, c_ospeed := 0 }

/-- A second native termios struct with distinctive junk contents. -/
def termiosN1 : TermiosNative :=
  { c_iflag := 17, c_oflag := 23, c_cflag := 2147483648, c_lflag := 5
    c_cc := List.replicate 8 7, c_ispeed := 9600, c_ospeed := 115200 }

/-- A reflection environment in which every Termios field resolves. -/
def termiosEnvFull : JniClassEnv :=
  { clazz := 11, fieldID := fun _ _ => some 1 }

/-- A reflection environment in which the `c_cc` field is absent. -/
def termiosEnvMissingCc : JniClassEnv :=
  { clazz := 11, fieldID := fun n _ => if n = "c_cc" then none else some 1 }

/-- The `Termios_FID_CACHE` before first use (all-zero global). -/
def termiosCacheEmpty : TermiosFidCache :=
  { cached := false, clazz := none, c_iflag := none, c_oflag := none
    c_cflag := none, c_lflag := none, c_cc := none, c_ispeed := none
    c_ospeed := none }

/-- A populated `Termios_FID_CACHE`. -/
def termiosCacheDone : TermiosFidCache :=
  { cached := true, clazz := some 11, c_iflag := some 1, c_oflag := some 1
    c_cflag := some 1, c_lflag := some 1, c_cc := some 1, c_ispeed := some 1
    c_ospeed := some 1 }

/-- A populated `INPUT_RECORD_FID_CACHE`. -/
def inputRecordCacheDone : InputRecordFidCache :=
  { cached := true, clazz := some 12, eventType := some 1, keyEvent := some 1
    mouseEvent := some 1, windowBufferSizeEvent := some 1, menuEvent := some 1
    focusEvent := some 1 }

/-- The `INPUT_RECORD_FID_CACHE` before first use. -/
def inputRecordCacheEmpty : InputRecordFidCache :=
  { cached := false, clazz := none, eventType := none, keyEvent := none
    mouseEvent := none, windowBufferSizeEvent := none, menuEvent := none
    focusEvent := none }

/-- An isatty environment: an MSYS pty pipe (`msys-1234-pty5-rd`, 17 wide
characters, so `Name.Length` is 34 bytes). -/
def isattyEnvMsys : Win32IsattyEnv :=
  { osfhandleNull := true, fileType := 0, consoleModeOk := false
    ntdllLoaded := true, ntQueryObjectFound := true, queryOk := true
    nameNull := false, nameBuffer := "msys-1234-pty5-rd".toList
    nameLenBytes := 34 }

/-- An isatty environment: a real console (character device, console-mode query
succeeds). -/
def isattyEnvConsole : Win32IsattyEnv :=
  { osfhandleNull := false, fileType := 2, consoleModeOk := true
    ntdllLoaded := false, ntQueryObjectFound := false, queryOk := false
    nameNull := false, nameBuffer := [], nameLenBytes := 0 }

/-- An isatty environment: a pipe handle with `ntdll.dll` unavailable. -/
def isattyEnvNoNtdll : Win32IsattyEnv :=
  { osfhandleNull := true, fileType := 3, consoleModeOk := false
    ntdllLoaded := false, ntQueryObjectFound := false, queryOk := false
    nameNull := false, nameBuffer := [], nameLenBytes := 0 }

/-- A CONSOLE_SCREEN_BUFFER_INFO object with all sub-objects present. -/
def csbiA : CsbiJava :=
  { size := some { x := 80, y := 25 }, cursorPosition := some { x := 3, y := 4 }
    attributes := -5, window := some { left := 0, top := 0, right := 79, bottom := 24 }
    maximumWindowSize := some { x := 120, y := 60 } }

/-- A zeroed destination CONSOLE_SCREEN_BUFFER_INFO object, all sub-objects
present. -/
def csbiB : CsbiJava :=
  { size := some { x := 0, y := 0 }, cursorPosition := some { x := 0, y := 0 }
    attributes := 0, window := some { left := 0, top := 0, right := 0, bottom := 0 }
    maximumWindowSize := some { x := 0, y := 0 } }

/-- A CONSOLE_SCREEN_BUFFER_INFO object with every sub-object absent. -/
def csbiNone : CsbiJava :=
  { size := none, cursorPosition := none, attributes := 7, window := none
    maximumWindowSize := none }

/-- A native CONSOLE_SCREEN_BUFFER_INFO with distinctive prior contents. -/
def csbiN0 : CsbiNative :=
  { dwSize := { X := 1, Y := 2 }, dwCursorPosition := { X := 3, Y := 4 }
    wAttributes := 5, srWindow := { Left := 6, Top := 7, Right := 8, Bottom := 9 }
    dwMaximumWindowSize := { X := 10, Y := 11 } }

/-- An OS `ttyname_r` behaviour that resolves fd 5 to `/dev/pts/1`. -/
def osTtynameOk : Nat → Nat → Int × List Char :=
  fun _ _ => (0, "/dev/pts/1".toList)

/-- An OS `ttyname_r` behaviour that fails with `ENOTTY`. -/
def osTtynameFail : Nat → Nat → Int × List Char :=
  fun _ _ => (25, [])
theorem signedOfUnsigned_toUnsigned_small (bits w : Nat) (a : Int)
    (hw : w < bits) (h0 : 0 ≤ a) (h1 : a < 2 ^ w) :
    signedOfUnsigned bits (toUnsigned w a) = a := by
  have hpow : (2 : Int) ^ w ≤ (2 : Int) ^ (bits - 1) :=
    pow_le_pow_right₀ (by norm_num) (by omega)
  have hmod : a % ((2 : Int) ^ w) = a :=
    Int.emod_eq_of_lt h0 h1
  have hlt : a < (2 : Int) ^ (bits - 1) := lt_of_lt_of_le h1 hpow
  have hlt2 : a < (2 : Int) ^ bits := by
    calc a < (2 : Int) ^ (bits - 1) := hlt
    _ ≤ (2 : Int) ^ bits := pow_le_pow_right₀ (by norm_num) (by omega)
  unfold signedOfUnsigned toUnsigned
  rw [hmod]
  have hnat : ((a.toNat : Int)) = a := Int.toNat_of_nonneg h0
  have hn1 : a.toNat % 2 ^ bits = a.toNat := by
    apply Nat.mod_eq_of_lt
    have : (a.toNat : Int) < ((2 ^ bits : Nat) : Int) := by
      rw [hnat]; push_cast; exact hlt2
    exact_mod_cast this
  rw [hn1]
  have hcond : a.toNat < 2 ^ (bits - 1) := by
    have : (a.toNat : Int) < ((2 ^ (bits - 1) : Nat) : Int) := by
      rw [hnat]; push_cast; exact hlt
    exact_mod_cast this
  rw [if_pos hcond, hnat]

theorem signedOfUnsigned_toUnsigned_full (bits : Nat) (a : Int)
    (hb : 0 < bits) (h0 : -(2 ^ (bits - 1)) ≤ a) (h1 : a < 2 ^ (bits - 1)) :
    signedOfUnsigned bits (toUnsigned bits a) = a := by
  have hsplit : (2 : Int) ^ bits = 2 ^ (bits - 1) * 2 := by
    rw [← pow_succ]
    congr 1
    omega
  have hposh : (0 : Int) < 2 ^ (bits - 1) := by positivity
  rcases le_or_lt 0 a with hpos | hneg
  · -- nonnegative case: the value survives the mod and sits in the lower half
    have hlt2 : a < (2 : Int) ^ bits := by omega
    have hmod : a % ((2 : Int) ^ bits) = a := Int.emod_eq_of_lt hpos hlt2
    unfold signedOfUnsigned toUnsigned
    rw [hmod]
    have hnat : ((a.toNat : Int)) = a := Int.toNat_of_nonneg hpos
    have hn1 : a.toNat % 2 ^ bits = a.toNat := by
      apply Nat.mod_eq_of_lt
      have : (a.toNat : Int) < ((2 ^ bits : Nat) : Int) := by
        rw [hnat]; push_cast; exact hlt2
      exact_mod_cast this
    rw [hn1]
    have hcond : a.toNat < 2 ^ (bits - 1) := by
      have : (a.toNat : Int) < ((2 ^ (bits - 1) : Nat) : Int) := by
        rw [hnat]; push_cast; exact h1
      exact_mod_cast this
    rw [if_pos hcond, hnat]
  · -- negative case: a % 2^bits = a + 2^bits, which lands in the upper half
    have hmod : a % ((2 : Int) ^ bits) = a + 2 ^ bits := by
      have h2 : a % ((2 : Int) ^ bits) = (a + 2 ^ bits) % ((2 : Int) ^ bits) := by
        have := Int.add_mul_emod_self_left (a := a) (b := (2 : Int) ^ bits) (c := 1)
        rw [mul_one] at this
        exact this.symm
      rw [h2]
      apply Int.emod_eq_of_lt
      · omega
      · omega
    unfold signedOfUnsigned toUnsigned
    rw [hmod]
    have hnn : (0 : Int) ≤ a + 2 ^ bits := by omega
    have htn : (((a + 2 ^ bits).toNat : Int)) = a + 2 ^ bits := Int.toNat_of_nonneg hnn
    have hlt : a + 2 ^ bits < 2 ^ bits := by omega
    have hml : (a + 2 ^ bits).toNat % 2 ^ bits = (a + 2 ^ bits).toNat := by
      apply Nat.mod_eq_of_lt
      have : ((a + 2 ^ bits).toNat : Int) < ((2 ^ bits : Nat) : Int) := by
        rw [htn]; push_cast; omega
      exact_mod_cast this
    rw [hml]
    have hcond : ¬ (a + 2 ^ bits).toNat < 2 ^ (bits - 1) := by
      intro hcon
      have : ((a + 2 ^ bits).toNat : Int) < ((2 ^ (bits - 1) : Nat) : Int) := by
        exact_mod_cast hcon
      rw [htn] at this
      push_cast at this
      omega
    rw [if_neg hcond, htn]
    omega

theorem toJlong_toUnsigned (w : Nat) (a : Int) (h : repValid w a) :
    toJlong (toUnsigned w a) = a := by
  rcases h with ⟨hw, h0, h1⟩ | ⟨hw, h0, h1⟩
  · exact signedOfUnsigned_toUnsigned_small 64 w a hw h0 h1
  · subst hw
    exact signedOfUnsigned_toUnsigned_full 64 a (by norm_num) h0 h1

theorem toJshort_toUnsigned (a : Int) (h0 : -(2 ^ 15) ≤ a) (h1 : a < 2 ^ 15) :
    toJshort (toUnsigned 16 a) = a :=
  signedOfUnsigned_toUnsigned_full 16 a (by norm_num) h0 h1

/-! ## Claim theorems -/

/-- C1: For every valid TerminalAttributes value `A` (flag and speed fields that
faithfully represent the native unsigned widths, including the all-zero and
all-one bitmasks, and a control-character array of length `NCCS`), marshalling
`A` into a native termios struct with `getTermiosFields` and writing that
struct back into a managed object `B` with `setTermiosFields` leaves `B`
field-for-field equal to `A`. -/
theorem termios_marshal_roundtrip (abi : PosixAbi) (A B : TermiosJava)
    (N0 : TermiosNative)
    (hif : repValid abi.tcflagBits A.c_iflag)
    (hof : repValid abi.tcflagBits A.c_oflag)
    (hcf : repValid abi.tcflagBits A.c_cflag)
    (hlf : repValid abi.tcflagBits A.c_lflag)
    (his : repValid abi.speedBits A.c_ispeed)
    (hos : repValid abi.speedBits A.c_ospeed)
    (hA : A.c_cc.length = abi.nccs) (hB : B.c_cc.length = abi.nccs) :
    (getTermiosFields abi A N0).bind (fun N => setTermiosFields abi B N) =
      Except.ok A := by
  unfold getTermiosFields getByteArrayRegion
  rw [if_pos (le_of_eq hA.symm)]
  have htakeA : A.c_cc.take abi.nccs = A.c_cc := by
    rw [← hA]
    exact List.take_length A.c_cc
  simp only [Except.bind]
  unfold setTermiosFields setByteArrayRegion
  rw [if_pos (le_of_eq hB.symm)]
  have hdropB : B.c_cc.drop abi.nccs = [] := by
    apply List.drop_eq_nil_of_le
    exact le_of_eq hB
  simp only [htakeA, hdropB, List.append_nil]
  rw [toJlong_toUnsigned _ _ hif, toJlong_toUnsigned _ _ hof,
    toJlong_toUnsigned _ _ hcf, toJlong_toUnsigned _ _ hlf,
    toJlong_toUnsigned _ _ his, toJlong_toUnsigned _ _ hos]

/-- Witness for C1 at a concrete all-one-bitmask input. -/
theorem termios_marshal_roundtrip_witness :
    (getTermiosFields abiW termiosAllOnes termiosN0).bind
      (fun N => setTermiosFields abiW termiosB N) = Except.ok termiosAllOnes :=
  termios_marshal_roundtrip abiW termiosAllOnes termiosB termiosN0
    (by decide) (by decide) (by decide) (by decide) (by decide) (by decide)
    (by decide) (by decide)

/-- C2: The Termios control-character marshalling copies exactly `NCCS` bytes
in each direction: an exactly-`NCCS` managed array is preserved byte for byte,
a shorter managed array signals the out-of-range error, and a longer managed
array is truncated silently with no error, the marshalled result being the
first `NCCS` bytes of the input. -/
theorem termios_cc_fixed_width (abi : PosixAbi) (A B : TermiosJava)
    (N0 N : TermiosNative) :
    (A.c_cc.length = abi.nccs →
      Except.map TermiosNative.c_cc (getTermiosFields abi A N0) =
        Except.ok A.c_cc) ∧
    (A.c_cc.length < abi.nccs →
      getTermiosFields abi A N0 = Except.error JniError.arrayIndexOutOfBounds) ∧
    (abi.nccs ≤ A.c_cc.length →
      Except.map TermiosNative.c_cc (getTermiosFields abi A N0) =
        Except.ok (A.c_cc.take abi.nccs)) ∧
    (B.c_cc.length < abi.nccs →
      setTermiosFields abi B N = Except.error JniError.arrayIndexOutOfBounds) ∧
    (B.c_cc.length = abi.nccs → N.c_cc.length = abi.nccs →
      Except.map TermiosJava.c_cc (setTermiosFields abi B N) =
        Except.ok N.c_cc) := by
  refine ⟨?_, ?_, ?_, ?_, ?_⟩
  · intro h
    unfold getTermiosFields getByteArrayRegion
    rw [if_pos (le_of_eq h.symm)]
    simp only [Except.map]
    rw [← h]
    rw [List.take_length]
  · intro h
    unfold getTermiosFields getByteArrayRegion
    rw [if_neg (by omega)]
  · intro h
    unfold getTermiosFields getByteArrayRegion
    rw [if_pos h]
    simp only [Except.map]
  · intro h
    unfold setTermiosFields setByteArrayRegion
    rw [if_neg (by omega)]
  · intro hB hN
    unfold setTermiosFields setByteArrayRegion
    rw [if_pos (le_of_eq hB.symm)]
    simp only [Except.map]
    have h1 : N.c_cc.take abi.nccs = N.c_cc := by
      rw [← hN]; exact List.take_length N.c_cc
    have h2 : B.c_cc.drop abi.nccs = [] :=
      List.drop_eq_nil_of_le (le_of_eq hB)
    rw [h1, h2, List.append_nil]

/-- Witness for C2: the five cases exercised at concrete inputs (`NCCS` = 8;
arrays of length 8, 2 and 12). -/
theorem termios_cc_fixed_width_witness :
    Except.map TermiosNative.c_cc (getTermiosFields abiW termiosB termiosN0) =
      Except.ok termiosB.c_cc ∧
    getTermiosFields abiW termiosShortCc termiosN0 =
      Except.error JniError.arrayIndexOutOfBounds ∧
    Except.map TermiosNative.c_cc (getTermiosFields abiW termiosLongCc termiosN0) =
      Except.ok (termiosLongCc.c_cc.take abiW.nccs) ∧
    setTermiosFields abiW termiosShortCc termiosN1 =
      Except.error JniError.arrayIndexOutOfBounds ∧
    Except.map TermiosJava.c_cc (setTermiosFields abiW termiosB termiosN1) =
      Except.ok termiosN1.c_cc :=
  ⟨(termios_cc_fixed_width abiW termiosB termiosB termiosN0 termiosN0).1 (by decide),
   (termios_cc_fixed_width abiW termiosShortCc termiosB termiosN0 termiosN0).2.1 (by decide),
   (termios_cc_fixed_width abiW termiosLongCc termiosB termiosN0 termiosN0).2.2.1 (by decide),
   (termios_cc_fixed_width abiW termiosB termiosShortCc termiosN0 termiosN1).2.2.2.1 (by decide),
   (termios_cc_fixed_width abiW termiosB termiosB termiosN0 termiosN1).2.2.2.2 (by decide) (by decide)⟩

/-- C3: For the Termios and INPUT_RECORD field-descriptor caches: once the
`cached` flag is true the stored accessor set is never modified again, by the
resolver itself or by the cache prelude of any later marshalling call (which
returns with no global write, i.e. uses the cached accessors without
re-resolving); and a resolving run writes the complete accessor set, with the
`cached` flag as the very last write, preceded by the write barrier, and every
accessor write strictly before the barrier. -/
theorem fid_cache_publish_discipline :
    (∀ (env : JniClassEnv) (st : TermiosFidCache), st.cached = true →
      cacheTermiosFields env st = (st, [], false)) ∧
    (∀ (env : JniClassEnv) (st : TermiosFidCache), st.cached = true →
      termiosMarshalCacheStep env st = (st, [], false)) ∧
    (∀ (env : JniClassEnv) (st : TermiosFidCache), st.cached = false →
      (cacheTermiosFields env st).1.cached = true ∧
      (cacheTermiosFields env st).1.clazz = some env.clazz ∧
      (cacheTermiosFields env st).1.c_iflag = env.fieldID "c_iflag" "J" ∧
      (cacheTermiosFields env st).1.c_oflag = env.fieldID "c_oflag" "J" ∧
      (cacheTermiosFields env st).1.c_cflag = env.fieldID "c_cflag" "J" ∧
      (cacheTermiosFields env st).1.c_lflag = env.fieldID "c_lflag" "J" ∧
      (cacheTermiosFields env st).1.c_cc = env.fieldID "c_cc" "[B" ∧
      (cacheTermiosFields env st).1.c_ispeed = env.fieldID "c_ispeed" "J" ∧
      (cacheTermiosFields env st).1.c_ospeed = env.fieldID "c_ospeed" "J" ∧
      ∃ pre, (cacheTermiosFields env st).2.1 =
          pre ++ [CacheWrite.barrier, CacheWrite.cachedFlag] ∧
        CacheWrite.cachedFlag ∉ pre ∧ CacheWrite.barrier ∉ pre ∧
        ∀ n, CacheWrite.field n ∈ (cacheTermiosFields env st).2.1 →
          CacheWrite.field n ∈ pre) ∧
    (∀ (env : JniClassEnv) (st : InputRecordFidCache), st.cached = true →
      cacheINPUT_RECORDFields env st = (st, [], false)) ∧
    (∀ (env : JniClassEnv) (st : InputRecordFidCache), st.cached = true →
      inputRecordMarshalCacheStep env st = (st, [], false)) ∧
    (∀ (env : JniClassEnv) (st : InputRecordFidCache), st.cached = false →
      (cacheINPUT_RECORDFields env st).1.cached = true ∧
      (cacheINPUT_RECORDFields env st).1.eventType = env.fieldID "eventType" "S" ∧
      ∃ pre, (cacheINPUT_RECORDFields env st).2.1 =
          pre ++ [CacheWrite.barrier, CacheWrite.cachedFlag] ∧
        CacheWrite.cachedFlag ∉ pre ∧ CacheWrite.barrier ∉ pre ∧
        ∀ n, CacheWrite.field n ∈ (cacheINPUT_RECORDFields env st).2.1 →
          CacheWrite.field n ∈ pre) := by
  refine ⟨?_, ?_, ?_, ?_, ?_, ?_⟩
  · intro env st h
    unfold cacheTermiosFields
    rw [if_pos h]
  · intro env st h
    unfold termiosMarshalCacheStep
    rw [if_pos h]
  · intro env st h
    unfold cacheTermiosFields
    rw [if_neg (by simp [h])]
    refine ⟨rfl, rfl, rfl, rfl, rfl, rfl, rfl, rfl, rfl, ?_⟩
    refine ⟨[CacheWrite.clazz, CacheWrite.field "c_iflag", CacheWrite.field "c_oflag",
      CacheWrite.field "c_cflag", CacheWrite.field "c_lflag", CacheWrite.field "c_cc",
      CacheWrite.field "c_ispeed", CacheWrite.field "c_ospeed"], rfl, by decide, by decide, ?_⟩
    intro n hn
    simp only [List.mem_cons, List.mem_singleton, List.not_mem_nil, or_false] at hn ⊢
    rcases hn with h1 | h1 | h1 | h1 | h1 | h1 | h1 | h1 | h1 | h1 <;>
      simp_all
  · intro env st h
    unfold cacheINPUT_RECORDFields
    rw [if_pos h]
  · intro env st h
    unfold inputRecordMarshalCacheStep
    rw [if_pos h]
  · intro env st h
    unfold cacheINPUT_RECORDFields
    rw [if_neg (by simp [h])]
    refine ⟨rfl, rfl, ?_⟩
    refine ⟨[CacheWrite.clazz, CacheWrite.field "eventType", CacheWrite.field "keyEvent",
      CacheWrite.field "mouseEvent", CacheWrite.field "windowBufferSizeEvent",
      CacheWrite.field "menuEvent", CacheWrite.field "focusEvent"], rfl, by decide, by decide, ?_⟩
    intro n hn
    simp only [List.mem_cons, List.mem_singleton, List.not_mem_nil, or_false] at hn ⊢
    rcases hn with h1 | h1 | h1 | h1 | h1 | h1 | h1 | h1 | h1 <;>
      simp_all

/-- Witness for C3: populated caches are returned untouched by the resolver and
by the marshalling prelude, and a first-use resolution publishes the flag. -/
theorem fid_cache_publish_discipline_witness :
    cacheTermiosFields termiosEnvFull termiosCacheDone = (termiosCacheDone, [], false) ∧
    termiosMarshalCacheStep termiosEnvFull termiosCacheDone = (termiosCacheDone, [], false) ∧
    (cacheTermiosFields termiosEnvFull termiosCacheEmpty).1.cached = true ∧
    cacheINPUT_RECORDFields termiosEnvFull inputRecordCacheDone = (inputRecordCacheDone, [], false) ∧
    inputRecordMarshalCacheStep termiosEnvFull inputRecordCacheDone = (inputRecordCacheDone, [], false) ∧
    (cacheINPUT_RECORDFields termiosEnvFull inputRecordCacheEmpty).1.cached = true :=
  ⟨fid_cache_publish_discipline.1 termiosEnvFull termiosCacheDone rfl,
   fid_cache_publish_discipline.2.1 termiosEnvFull termiosCacheDone rfl,
   (fid_cache_publish_discipline.2.2.1 termiosEnvFull termiosCacheEmpty rfl).1,
   fid_cache_publish_discipline.2.2.2.1 termiosEnvFull inputRecordCacheDone rfl,
   fid_cache_publish_discipline.2.2.2.2.1 termiosEnvFull inputRecordCacheDone rfl,
   (fid_cache_publish_discipline.2.2.2.2.2 termiosEnvFull inputRecordCacheEmpty rfl).1⟩

/-- C4 counterexample: `SetConsoleCursorPosition` takes an optional structured
COORD argument, but with that argument absent the call dereferences the null
marshalling pointer (`*lparg1`) instead of issuing the OS call with a null
native pointer — the outcome is the undefined-behaviour crash, not an issued
call. -/
theorem setConsoleCursorPosition_absent_crashes :
    Kernel32_SetConsoleCursorPosition 7 none = NativeOutcome.crash := rfl

/-- C4 amended: facade calls that pass an optional structured argument by
pointer (such as `openpty`) tolerate its absence — that argument's marshalling
is skipped and the system call is still issued with a null native pointer, and
a call with all optional structures absent still reaches the OS call with all
pointers null; but a call that passes the structure by value
(`SetConsoleCursorPosition`) dereferences the null pointer when the argument is
absent and never reaches the OS call. -/
theorem facade_optional_argument_tolerance (abi : PosixAbi)
    (junkT : TermiosNative) (junkW : WinSizeNative)
    (m s nm : Option (List Int)) (w : Option WinSizeJava) (h : Int) :
    CLibrary_openpty abi junkT junkW m s nm none w =
      Except.ok { amaster := m, aslave := s, name := nm, termp := none
                  winp := w.map (fun x => getWinSizeFields x junkW) } ∧
    CLibrary_openpty abi junkT junkW none none none none none =
      Except.ok { amaster := none, aslave := none, name := none, termp := none
                  winp := none } ∧
    Kernel32_SetConsoleCursorPosition h none = NativeOutcome.crash :=
  ⟨rfl, rfl, rfl⟩

/-- C5 counterexample: resolving the Termios descriptors against a managed
class with no `c_cc` field leaves the `NoSuchFieldError` pending (`.2.2`), yet
the cache is still published as resolved (`cached = true`) — the claim's "the
cache is not published as resolved" fails. -/
theorem cache_published_despite_missing_field :
    (cacheTermiosFields termiosEnvMissingCc termiosCacheEmpty).2.2 = true ∧
    (cacheTermiosFields termiosEnvMissingCc termiosCacheEmpty).1.cached = true := by
  constructor <;> rfl

/-- C5 amended: if resolving a structure kind's field descriptors finds an
expected field absent, the resolution signals the schema-mismatch error (the
pending `NoSuchFieldError`), but the cache is nevertheless published as
resolved — the `cached` flag is set and a null accessor is stored for the
absent field — and the marshalling operation is not aborted by the cache
layer. -/
theorem cache_missing_field_signals_but_publishes (env : JniClassEnv)
    (st : TermiosFidCache) (h : st.cached = false)
    (hmiss : env.fieldID "c_cc" "[B" = none) :
    (cacheTermiosFields env st).2.2 = true ∧
    (cacheTermiosFields env st).1.cached = true ∧
    (cacheTermiosFields env st).1.c_cc = none := by
  unfold cacheTermiosFields
  rw [if_neg (by simp [h])]
  refine ⟨?_, rfl, hmiss⟩
  simp [hmiss]

/-- Witness for the amended C5 at the concrete missing-field environment. -/
theorem cache_missing_field_signals_but_publishes_witness :
    (cacheTermiosFields termiosEnvMissingCc termiosCacheEmpty).2.2 = true ∧
    (cacheTermiosFields termiosEnvMissingCc termiosCacheEmpty).1.cached = true ∧
    (cacheTermiosFields termiosEnvMissingCc termiosCacheEmpty).1.c_cc = none :=
  cache_missing_field_signals_but_publishes termiosEnvMissingCc termiosCacheEmpty
    rfl rfl

/-- C6: the Windows `isatty` decision procedure is total (always 0 or 1, no
error path): a non-null character-device handle whose console-mode query
succeeds classifies as tty; a non-character-device handle whose kernel object
name matches the emulated-pty convention (`msys-…-pty…` or `cygwin-…-pty…`)
classifies as tty; a name that does not match, or any failure to load
`ntdll.dll`, resolve `NtQueryObject`, query the name, or obtain a non-null
name buffer, classifies as not a tty. -/
theorem isatty_decision_procedure :
    (∀ env : Win32IsattyEnv, Kernel32_isatty env = 0 ∨ Kernel32_isatty env = 1) ∧
    (∀ env : Win32IsattyEnv, env.osfhandleNull = false →
      env.fileType = FILE_TYPE_CHAR → env.consoleModeOk = true →
      Kernel32_isatty env = 1) ∧
    (∀ env : Win32IsattyEnv, env.osfhandleNull = false →
      env.fileType = FILE_TYPE_CHAR → env.consoleModeOk = false →
      Kernel32_isatty env = 0) ∧
    (∀ env : Win32IsattyEnv,
      (env.osfhandleNull = true ∨ env.fileType ≠ FILE_TYPE_CHAR) →
      env.ntdllLoaded = true → env.ntQueryObjectFound = true →
      env.queryOk = true → env.nameNull = false →
      ptyPipeNameHit (isattyEffectiveName env) = true →
      Kernel32_isatty env = 1) ∧
    (∀ env : Win32IsattyEnv,
      (env.osfhandleNull = true ∨ env.fileType ≠ FILE_TYPE_CHAR) →
      env.ntdllLoaded = true → env.ntQueryObjectFound = true →
      env.queryOk = true → env.nameNull = false →
      ptyPipeNameHit (isattyEffectiveName env) = false →
      Kernel32_isatty env = 0) ∧
    (∀ env : Win32IsattyEnv,
      (env.osfhandleNull = true ∨ env.fileType ≠ FILE_TYPE_CHAR) →
      (env.ntdllLoaded = false ∨ env.ntQueryObjectFound = false ∨
        env.queryOk = false ∨ env.nameNull = true) →
      Kernel32_isatty env = 0) := by
  refine ⟨?_, ?_, ?_, ?_, ?_, ?_⟩
  · intro env
    unfold Kernel32_isatty
    split_ifs <;> simp
  · intro env h1 h2 h3
    unfold Kernel32_isatty
    simp [h1, h2, h3, FILE_TYPE_CHAR]
  · intro env h1 h2 h3
    unfold Kernel32_isatty
    simp [h1, h2, h3, FILE_TYPE_CHAR]
  · intro env h1 h2 h3 h4 h5 h6
    have hbr : (!env.osfhandleNull && (env.fileType == FILE_TYPE_CHAR)) = false := by
      rcases h1 with h | h <;> simp [h]
    unfold Kernel32_isatty
    rw [hbr]
    simp [h2, h3, h4, h5, h6]
  · intro env h1 h2 h3 h4 h5 h6
    have hbr : (!env.osfhandleNull && (env.fileType == FILE_TYPE_CHAR)) = false := by
      rcases h1 with h | h <;> simp [h]
    unfold Kernel32_isatty
    rw [hbr]
    simp [h2, h3, h4, h5, h6]
  · intro env h1 h2
    have hbr : (!env.osfhandleNull && (env.fileType == FILE_TYPE_CHAR)) = false := by
      rcases h1 with h | h <;> simp [h]
    unfold Kernel32_isatty
    rw [hbr]
    rcases h2 with h | h | h | h <;> simp [h]

/-- Witness for C6: the MSYS pty pipe name `msys-1234-pty5-rd` classifies as a
tty, a character-device console classifies as a tty, and a pipe without
`ntdll.dll` classifies as not a tty. -/
theorem isatty_decision_procedure_witness :
    Kernel32_isatty isattyEnvMsys = 1 ∧
    Kernel32_isatty isattyEnvConsole = 1 ∧
    Kernel32_isatty isattyEnvNoNtdll = 0 :=
  ⟨isatty_decision_procedure.2.2.2.1 isattyEnvMsys (Or.inl rfl) rfl rfl rfl rfl
     (by decide),
   isatty_decision_procedure.2.1 isattyEnvConsole rfl rfl rfl,
   isatty_decision_procedure.2.2.2.2.2 isattyEnvNoNtdll (Or.inl rfl) (Or.inl rfl)⟩

/-- C7: a ConsoleScreenBufferInfo whose four sub-objects are present on both
sides (plus the scalar attributes field in `jshort` range) round-trips exactly
through `getCONSOLE_SCREEN_BUFFER_INFOFields` then
`setCONSOLE_SCREEN_BUFFER_INFOFields`; an absent (`null`) sub-object is
silently skipped with no error: on read-into-native the corresponding native
sub-region keeps its prior contents, and on write-from-native the managed
sub-object field is left untouched (still absent, not zeroed). -/
theorem csbi_composite_roundtrip_and_frame :
    (∀ (A B : CsbiJava) (N0 : CsbiNative) (sa ca ma sb cb mb : CoordJava)
        (wa wb : SmallRectJava),
      A.size = some sa → A.cursorPosition = some ca → A.window = some wa →
      A.maximumWindowSize = some ma →
      B.size = some sb → B.cursorPosition = some cb → B.window = some wb →
      B.maximumWindowSize = some mb →
      -(2 ^ 15) ≤ A.attributes → A.attributes < 2 ^ 15 →
      setCONSOLE_SCREEN_BUFFER_INFOFields B
        (getCONSOLE_SCREEN_BUFFER_INFOFields A N0) = A) ∧
    (∀ (A : CsbiJava) (N0 : CsbiNative), A.size = none →
      (getCONSOLE_SCREEN_BUFFER_INFOFields A N0).dwSize = N0.dwSize) ∧
    (∀ (A : CsbiJava) (N0 : CsbiNative), A.cursorPosition = none →
      (getCONSOLE_SCREEN_BUFFER_INFOFields A N0).dwCursorPosition =
        N0.dwCursorPosition) ∧
    (∀ (A : CsbiJava) (N0 : CsbiNative), A.window = none →
      (getCONSOLE_SCREEN_BUFFER_INFOFields A N0).srWindow = N0.srWindow) ∧
    (∀ (A : CsbiJava) (N0 : CsbiNative), A.maximumWindowSize = none →
      (getCONSOLE_SCREEN_BUFFER_INFOFields A N0).dwMaximumWindowSize =
        N0.dwMaximumWindowSize) ∧
    (∀ (B : CsbiJava) (N : CsbiNative), B.size = none →
      (setCONSOLE_SCREEN_BUFFER_INFOFields B N).size = none) ∧
    (∀ (B : CsbiJava) (N : CsbiNative), B.cursorPosition = none →
      (setCONSOLE_SCREEN_BUFFER_INFOFields B N).cursorPosition = none) ∧
    (∀ (B : CsbiJava) (N : CsbiNative), B.window = none →
      (setCONSOLE_SCREEN_BUFFER_INFOFields B N).window = none) ∧
    (∀ (B : CsbiJava) (N : CsbiNative), B.maximumWindowSize = none →
      (setCONSOLE_SCREEN_BUFFER_INFOFields B N).maximumWindowSize = none) := by
  refine ⟨?_, ?_, ?_, ?_, ?_, ?_, ?_, ?_, ?_⟩
  · intro A B N0 sa ca ma sb cb mb wa wb hAs hAc hAw hAm hBs hBc hBw hBm h0 h1
    obtain ⟨As, Ac, Aat, Aw, Am⟩ := A
    simp only at hAs hAc hAw hAm h0 h1
    subst hAs hAc hAw hAm
    unfold setCONSOLE_SCREEN_BUFFER_INFOFields getCONSOLE_SCREEN_BUFFER_INFOFields
    simp only [hBs, hBc, hBw, hBm, Option.map_some]
    unfold setCOORDFields getCOORDFields setSMALL_RECTFields getSMALL_RECTFields
    simp only
    rw [toJshort_toUnsigned Aat h0 h1]
    simp only [Option.map_some']
  · intro A N0 h
    unfold getCONSOLE_SCREEN_BUFFER_INFOFields
    simp [h]
  · intro A N0 h
    unfold getCONSOLE_SCREEN_BUFFER_INFOFields
    simp [h]
  · intro A N0 h
    unfold getCONSOLE_SCREEN_BUFFER_INFOFields
    simp [h]
  · intro A N0 h
    unfold getCONSOLE_SCREEN_BUFFER_INFOFields
    simp [h]
  · intro B N h
    unfold setCONSOLE_SCREEN_BUFFER_INFOFields
    simp [h]
  · intro B N h
    unfold setCONSOLE_SCREEN_BUFFER_INFOFields
    simp [h]
  · intro B N h
    unfold setCONSOLE_SCREEN_BUFFER_INFOFields
    simp [h]
  · intro B N h
    unfold setCONSOLE_SCREEN_BUFFER_INFOFields
    simp [h]

/-- Witness for C7: a concrete all-present round-trip and concrete skipped
absent sub-objects. -/
theorem csbi_composite_roundtrip_and_frame_witness :
    setCONSOLE_SCREEN_BUFFER_INFOFields csbiB
      (getCONSOLE_SCREEN_BUFFER_INFOFields csbiA csbiN0) = csbiA ∧
    (getCONSOLE_SCREEN_BUFFER_INFOFields csbiNone csbiN0).dwSize = csbiN0.dwSize ∧
    (setCONSOLE_SCREEN_BUFFER_INFOFields csbiNone csbiN0).size = none :=
  ⟨csbi_composite_roundtrip_and_frame.1 csbiA csbiB csbiN0
     { x := 80, y := 25 } { x := 3, y := 4 } { x := 120, y := 60 }
     { x := 0, y := 0 } { x := 0, y := 0 } { x := 0, y := 0 }
     { left := 0, top := 0, right := 79, bottom := 24 }
     { left := 0, top := 0, right := 0, bottom := 0 }
     rfl rfl rfl rfl rfl rfl rfl rfl (by decide) (by decide),
   csbi_composite_roundtrip_and_frame.2.1 csbiNone csbiN0 rfl,
   csbi_composite_roundtrip_and_frame.2.2.2.2.2.1 csbiNone csbiN0 rfl⟩

/-- C8: every `init` entry point stores into its kind's `SIZEOF` static the
platform ABI's actual `sizeof` of that native structure. Note on
`FOCUS_EVENT_RECORD`: the source expression is
`sizeof(WINDOW_BUFFER_SIZE_RECORD)` (kernel32.c line 802), but on the Win32 ABI
`sizeof(FOCUS_EVENT_RECORD) = sizeof(WINDOW_BUFFER_SIZE_RECORD) = 4`, so the
stored value is still the actual size of `FOCUS_EVENT_RECORD`. -/
theorem init_sizeof_matches_native_layout :
    (∀ abi : PosixAbi, Termios_init_SIZEOF abi = abi.sizeof_termios) ∧
    (∀ abi : PosixAbi, WinSize_init_SIZEOF abi = abi.sizeof_winsize) ∧
    CHAR_INFO_init_SIZEOF = sizeof_CHAR_INFO ∧
    CONSOLE_SCREEN_BUFFER_INFO_init_SIZEOF = sizeof_CONSOLE_SCREEN_BUFFER_INFO ∧
    COORD_init_SIZEOF = sizeof_COORD ∧
    FOCUS_EVENT_RECORD_init_SIZEOF = sizeof_FOCUS_EVENT_RECORD ∧
    INPUT_RECORD_init_SIZEOF = sizeof_INPUT_RECORD ∧
    KEY_EVENT_RECORD_init_SIZEOF = sizeof_KEY_EVENT_RECORD ∧
    MENU_EVENT_RECORD_init_SIZEOF = sizeof_MENU_EVENT_RECORD ∧
    MOUSE_EVENT_RECORD_init_SIZEOF = sizeof_MOUSE_EVENT_RECORD ∧
    SMALL_RECT_init_SIZEOF = sizeof_SMALL_RECT ∧
    WINDOW_BUFFER_SIZE_RECORD_init_SIZEOF = sizeof_WINDOW_BUFFER_SIZE_RECORD :=
  ⟨fun _ => rfl, fun _ => rfl, rfl, rfl, rfl, rfl, rfl, rfl, rfl, rfl, rfl, rfl⟩

/-- C9: `ttyname` hands `ttyname_r` a name buffer capped at 256 bytes; a
nonzero resolution status yields the absent result (`none`) rather than an
error, and a zero status returns the resolved name. -/
theorem ttyname_buffer_and_failure (osT : Nat → Nat → Int × List Char)
    (fd : Nat) :
    ttynameBufSize = 256 ∧
    ((osT fd ttynameBufSize).1 ≠ 0 → CLibrary_ttyname osT fd = none) ∧
    ((osT fd ttynameBufSize).1 = 0 →
      CLibrary_ttyname osT fd = some (osT fd ttynameBufSize).2) := by
  refine ⟨rfl, ?_, ?_⟩
  · intro h
    unfold CLibrary_ttyname
    rw [if_neg h]
  · intro h
    unfold CLibrary_ttyname
    rw [if_pos h]

/-- Witness for C9: a failing and a succeeding `ttyname_r` behaviour. -/
theorem ttyname_buffer_and_failure_witness :
    CLibrary_ttyname osTtynameFail 5 = none ∧
    CLibrary_ttyname osTtynameOk 5 = some ("/dev/pts/1".toList) :=
  ⟨(ttyname_buffer_and_failure osTtynameFail 5).2.1 (by decide),
   (ttyname_buffer_and_failure osTtynameOk 5).2.2 rfl⟩

/-- C10 (implicit): `tcgetattr` with a present managed Termios object
overwrites the object's fields with the native struct's contents
unconditionally — for every OS status `osRc`, including failures — and returns
the status verbatim; the managed object is not left unchanged on failure, it
receives the (junk) stack struct contents. -/
theorem tcgetattr_overwrites_managed_unconditionally (abi : PosixAbi)
    (osRc : Int) (N : TermiosNative) (B : TermiosJava)
    (hB : abi.nccs ≤ B.c_cc.length) :
    CLibrary_tcgetattr abi osRc N (some B) =
      Except.ok (osRc, some
        { c_iflag := toJlong N.c_iflag
          c_oflag := toJlong N.c_oflag
          c_cflag := toJlong N.c_cflag
          c_lflag := toJlong N.c_lflag
          c_cc := N.c_cc.take abi.nccs ++ B.c_cc.drop abi.nccs
          c_ispeed := toJlong N.c_ispeed
          c_ospeed := toJlong N.c_ospeed }) := by
  unfold CLibrary_tcgetattr setTermiosFields setByteArrayRegion
  simp [hB]

/-- Witness for C10 at a failing status code (`osRc = -1`) and junk stack
contents: the managed object is still overwritten and `-1` returned. -/
theorem tcgetattr_overwrites_managed_unconditionally_witness :
    CLibrary_tcgetattr abiW (-1) termiosN1 (some termiosB) =
      Except.ok (-1, some
        { c_iflag := toJlong termiosN1.c_iflag
          c_oflag := toJlong termiosN1.c_oflag
          c_cflag := toJlong termiosN1.c_cflag
          c_lflag := toJlong termiosN1.c_lflag
          c_cc := termiosN1.c_cc.take abiW.nccs ++ termiosB.c_cc.drop abiW.nccs
          c_ispeed := toJlong termiosN1.c_ispeed
          c_ospeed := toJlong termiosN1.c_ospeed }) :=
  tcgetattr_overwrites_managed_unconditionally abiW (-1) termiosN1 termiosB
    (by decide)
